import Mathlib

/-!
Shallow embedding of the worksync-web-ui client resilience layer:
the token storage service, the error handler / retry engine, the
rate limiter and the webhook processor reconnect logic, translated
from the JavaScript sources.  Time is modelled in integer
milliseconds (Nat); maps keyed by provider/service name are
association lists.
-/

namespace WorkSync

/-- Association-list lookup by string key (models JS object property read). -/
def alookup {α : Type} : List (String × α) → String → Option α
  | [], _ => none
  | (k, v) :: rest, p => if k = p then some v else alookup rest p

/-- Association-list update: replace the first binding of the key, or append
(models JS object property assignment). -/
def aset {α : Type} : List (String × α) → String → α → List (String × α)
  | [], p, t => [(p, t)]
  | (k, v) :: rest, p, t =>
      if k = p then (p, t) :: rest else (k, v) :: aset rest p t

/-- Association-list deletion of every binding of the key (models JS delete). -/
def aerase {α : Type} : List (String × α) → String → List (String × α)
  | [], _ => []
  | (k, v) :: rest, p =>
      if k = p then aerase rest p else (k, v) :: aerase rest p

/-! ## TokenStorageService

Translated from the token storage source: a token record carries the
fields inspected by the service; `storeToken` stamps provider,
storedAt and lastUsed and persists unconditionally; `getToken` deletes
an expired record, otherwise bumps lastUsed and re-persists through
`storeToken`.  The localStorage round trip always succeeds in the
model (Failure policy: storage faults are downgraded to booleans and
never escape, so the pure model is the success path). -/

structure Tok where
  accessToken : String
  refreshToken : Option String
  expiresAt : Option Nat
  provider : String
  storedAt : Nat
  lastUsed : Nat
deriving DecidableEq

abbrev TokenMap := List (String × Tok)

/-- storeToken: merges metadata (provider id, stored/last-used timestamps)
onto the payload and persists the provider-to-record mapping.  Always
returns true (the JS try/catch only returns false on a storage fault). -/
def storeToken (now : Nat) (m : TokenMap) (p : String) (d : Tok) :
    Bool × TokenMap :=
  (true, aset m p { d with provider := p, storedAt := now, lastUsed := now })

/-- removeToken: deletes the record, idempotent. -/
def removeToken (m : TokenMap) (p : String) : Bool × TokenMap :=
  (true, aerase m p)

/-- isTokenExpired: expiry minus a 5-minute buffer at or before now;
a record with no expiresAt is never expired. -/
def isTokenExpired (now : Nat) (t : Tok) : Bool :=
  match t.expiresAt with
  | none => false
  | some e => decide ((e : Int) - 5 * 60 * 1000 ≤ (now : Int))

/-- needsRefresh: expiry minus a 10-minute buffer at or before now;
a record with no expiresAt never needs refresh. -/
def needsRefresh (now : Nat) (t : Tok) : Bool :=
  match t.expiresAt with
  | none => false
  | some e => decide ((e : Int) - 10 * 60 * 1000 ≤ (now : Int))

/-- getToken: absent gives none; an expired record is removed and none is
returned; otherwise lastUsed is bumped and the record re-persisted via
storeToken (which also re-stamps storedAt), and the bumped record returned. -/
def getToken (now : Nat) (m : TokenMap) (p : String) :
    Option Tok × TokenMap :=
  match alookup m p with
  | none => (none, m)
  | some t =>
      if isTokenExpired now t then
        (none, (removeToken m p).2)
      else
        let t1 := { t with lastUsed := now }
        (some t1, (storeToken now m p t1).2)

structure ValidationResult where
  valid : Bool
  error : Option String
deriving DecidableEq

/-- validateToken: the only required field is accessToken; a falsy (empty)
value fails validation. -/
def validateToken (d : Tok) : ValidationResult :=
  if d.accessToken = "" then
    { valid := false, error := some "Missing required field: accessToken" }
  else
    { valid := true, error := none }

structure TokenStatus where
  connected : Bool
  authenticated : Bool
  expired : Bool
  needsRefresh : Bool
  expiresAt : Option Nat
  lastUsed : Option Nat
  storedAt : Option Nat
deriving DecidableEq

/-- getTokenStatus: reads through getToken (so it shares its bump/delete
side effects) and derives the UI view. -/
def getTokenStatus (now : Nat) (m : TokenMap) (p : String) :
    TokenStatus × TokenMap :=
  let r := getToken now m p
  match r.1 with
  | none =>
      ({ connected := false, authenticated := false, expired := false,
         needsRefresh := false, expiresAt := none, lastUsed := none,
         storedAt := none }, r.2)
  | some t =>
      let ex := isTokenExpired now t
      ({ connected := true, authenticated := !ex, expired := ex,
         needsRefresh := needsRefresh now t, expiresAt := t.expiresAt,
         lastUsed := some t.lastUsed, storedAt := some t.storedAt }, r.2)

/-- Outcome of the caller-supplied refresh function: it can throw, or
return a value (none models a null/undefined return). -/
inductive RefreshSpec where
  | throws
  | val (t : Option Tok)
deriving DecidableEq

/-- createRefreshCallback body: read through getToken; if absent or no
refresh needed, return what getToken gave; otherwise run the refresh
function: a valid result is stored and returned, an invalid or null
result removes the record and returns none, and a thrown error is caught
and none returned (the record is left as getToken left it). -/
def refreshCallback (now : Nat) (m : TokenMap) (p : String)
    (r : RefreshSpec) : Option Tok × TokenMap :=
  let g := getToken now m p
  match g.1 with
  | none => (none, g.2)
  | some t =>
      if needsRefresh now t = false then (some t, g.2)
      else
        match r with
        | .throws => (none, g.2)
        | .val none => (none, (removeToken g.2 p).2)
        | .val (some nt) =>
            if (validateToken nt).valid then
              (some nt, (storeToken now g.2 p nt).2)
            else
              (none, (removeToken g.2 p).2)

/-! ## ErrorHandlerService

Translated from the error handler source.  An error input carries the
fields the analyzer inspects; a numeric HTTP status may sit in either
the status or the code field (the source reads status-or-code and
parses it; non-numeric codes, which parse to NaN and match no branch,
are modelled as absent).  JS truthiness: an empty message string is
falsy, an absent graphQLErrors field is falsy but a present empty
array is truthy, hence the Option around the list. -/

/-- Whether the first character list occurs as a contiguous run at the
front of the second (helper for the JS includes check). -/
def leadsList : List Char → List Char → Bool
  | [], _ => true
  | _ :: _, [] => false
  | a :: as, b :: bs => a == b && leadsList as bs

/-- Whether the first character list occurs contiguously anywhere in the
second (models the JS String includes method). -/
def occursIn (needle : List Char) : List Char → Bool
  | [] => leadsList needle []
  | b :: bs => leadsList needle (b :: bs) || occursIn needle bs

structure ErrIn where
  name : String
  message : String
  status : Option Nat
  code : Option Nat
  graphQLErrors : Option (List String)
  headerRetryAfter : Option Nat
  bodyRetryAfter : Option Nat
deriving DecidableEq

inductive Cat where
  | network
  | auth
  | rateLimit
  | server
  | client
  | graphql
deriving DecidableEq

structure ErrorInfo where
  message : String
  isNetworkError : Bool
  isRateLimit : Bool
  isAuthError : Bool
  isServerError : Bool
  isClientError : Bool
  retryAfter : Option Nat
  category : Option Cat
  graphQLErrors : List String
deriving DecidableEq

/-- extractRetryAfter: header hint first, then the response body hint. -/
def extractRetryAfter (e : ErrIn) : Option Nat :=
  match e.headerRetryAfter with
  | some v => some v
  | none => e.bodyRetryAfter

/-- The numeric status the analyzer switches on: status, else code. -/
def statusOfErr (e : ErrIn) : Option Nat :=
  match e.status with
  | some s => some s
  | none => e.code

/-- The network-failure signature: a TypeError whose message mentions
fetch. -/
def isNetworkSig (e : ErrIn) : Bool :=
  e.name = "TypeError" && occursIn "fetch".toList e.message.toList

/-- The GraphQL signature: a present graphQLErrors field (a present
empty array is truthy in JS) or a message mentioning GraphQL. -/
def gqlSig (e : ErrIn) : Bool :=
  e.graphQLErrors.isSome || occursIn "GraphQL".toList e.message.toList

/-- analyzeError: sequential field assignments exactly as in the source.
The network check, then the status-code chain, then the GraphQL check;
the GraphQL check is a separate if statement, not an else-if, so it
overwrites the category whenever it fires, while the boolean flags set
by the earlier checks are left in place. -/
def analyzeError (e : ErrIn) : ErrorInfo :=
  let base : ErrorInfo :=
    { message := if e.message = "" then "Unknown error" else e.message,
      isNetworkError := false, isRateLimit := false, isAuthError := false,
      isServerError := false, isClientError := false, retryAfter := none,
      category := none, graphQLErrors := [] }
  let afterNet :=
    if isNetworkSig e then
      { base with isNetworkError := true, category := some Cat.network }
    else base
  let afterStatus :=
    match statusOfErr e with
    | none => afterNet
    | some sc =>
        if sc = 401 then
          { afterNet with isAuthError := true, category := some Cat.auth }
        else if sc = 429 then
          { afterNet with
              isRateLimit := true, category := some Cat.rateLimit,
              retryAfter := extractRetryAfter e }
        else if sc ≥ 500 then
          { afterNet with isServerError := true, category := some Cat.server }
        else if sc ≥ 400 then
          { afterNet with isClientError := true, category := some Cat.client }
        else afterNet
  if gqlSig e then
    { afterStatus with
        category := some Cat.graphql,
        graphQLErrors := e.graphQLErrors.getD [] }
  else afterStatus

/-- shouldRetry: refuse once the retry count reaches maxRetries, refuse
plain client errors, retry network, server and rate-limit errors. -/
def shouldRetry (info : ErrorInfo) (retryCount maxRetries : Nat) : Bool :=
  if retryCount ≥ maxRetries then false
  else if info.isClientError && !info.isRateLimit then false
  else info.isNetworkError || info.isServerError || info.isRateLimit

/-! ### withRetry

The wrapped operation is modelled by the sequence of outcomes of its
successive invocations; a failing invocation carries the thrown error
and, for the auth path, whether a refresh callback was supplied in the
context and whether it succeeds (none means no callback).  The JS while
loop runs while retryCount is at most maxRetries and every continue
increments retryCount, so fuel maxRetries + 1 - retryCount makes the
recursion structural. -/

inductive AttemptSpec where
  | ok
  | fail (e : ErrIn) (refreshOk : Option Bool)
deriving DecidableEq

/-- Terminal outcome of the retry wrapper, tagged with the number of
invocations of the wrapped operation that occurred.  Both of the error
constructors correspond to throwing a createEnhancedError value: the
enhanced constructor to the throw inside the loop, maxExceeded to the
throw after the loop exits with the Maximum retries exceeded message. -/
inductive RetryOutcome where
  | success (calls : Nat)
  | enhanced (calls : Nat)
  | maxExceeded (calls : Nat)
deriving DecidableEq

def RetryOutcome.calls : RetryOutcome → Nat
  | .success n => n
  | .enhanced n => n
  | .maxExceeded n => n

/-- One step of handleError as consumed by withRetry: retry when
shouldRetry allows it; otherwise, on an auth error with a supplied and
succeeding refresh callback, retry; otherwise the error result leads
withRetry to throw an enhanced error. -/
def runRetry (maxRetries : Nat) (outcomes : Nat → AttemptSpec) :
    Nat → Nat → Nat → RetryOutcome
  | 0, _, calls => .maxExceeded calls
  | fuel + 1, rc, calls =>
      match outcomes calls with
      | .ok => .success (calls + 1)
      | .fail e refreshOk =>
          let info := analyzeError e
          if shouldRetry info rc maxRetries then
            runRetry maxRetries outcomes fuel (rc + 1) (calls + 1)
          else if info.isAuthError && refreshOk == some true then
            runRetry maxRetries outcomes fuel (rc + 1) (calls + 1)
          else .enhanced (calls + 1)

/-- withRetry entry point: retryCount starts at 0 and the loop guard is
retryCount at most maxRetries, hence fuel maxRetries + 1. -/
def withRetryRun (maxRetries : Nat) (outcomes : Nat → AttemptSpec) :
    RetryOutcome :=
  runRetry maxRetries outcomes (maxRetries + 1) 0 0

/-! ## RateLimiter

Translated from the rate limiter source.  The per-service limit entry
keeps the recorded request entries, the concurrency counter and the two
derived flags; the per-service queue keeps the pending admission
requests; the service-to-entry maps are association lists keyed by the
service name, initialized for exactly the two configured services.
A queued caller is identified by an id (it stands for the pending
promise resolver held by the JS queue entry). -/

structure RLConfig where
  maxRequests : Nat
  windowMs : Nat
  warningThreshold : ℚ
  maxConcurrent : Option Nat
deriving DecidableEq

def jobberConfig : RLConfig :=
  { maxRequests := 2500, windowMs := 5 * 60 * 1000,
    warningThreshold := 8 / 10, maxConcurrent := none }

def quickbooksConfig : RLConfig :=
  { maxRequests := 500, windowMs := 60 * 1000,
    warningThreshold := 8 / 10, maxConcurrent := some 10 }

/-- The fixed configs table. -/
def cfgFor (service : String) : Option RLConfig :=
  if service = "jobber" then some jobberConfig
  else if service = "quickbooks" then some quickbooksConfig
  else none

structure ReqEntry where
  timestamp : Nat
  realmId : Option String
deriving DecidableEq

structure LimitEntry where
  requests : List ReqEntry
  concurrentRequests : Nat
  isWarning : Bool
  isBlocked : Bool
deriving DecidableEq

structure QItem where
  callerId : Nat
  realmId : Option String
  timestamp : Nat
deriving DecidableEq

structure RLState where
  limits : List (String × LimitEntry)
  queues : List (String × List QItem)
deriving DecidableEq

/-- initializeServices: one empty limit entry and one empty queue per
configured service. -/
def initialRLState : RLState :=
  { limits :=
      [("jobber", { requests := [], concurrentRequests := 0,
                    isWarning := false, isBlocked := false }),
       ("quickbooks", { requests := [], concurrentRequests := 0,
                        isWarning := false, isBlocked := false })],
    queues := [("jobber", []), ("quickbooks", [])] }

/-- updateWarningStatus: usage fraction against the warning threshold
and against one. -/
def updateWarningStatus (cfg : RLConfig) (lim : LimitEntry) : LimitEntry :=
  let usage : ℚ := (lim.requests.length : ℚ) / (cfg.maxRequests : ℚ)
  { lim with
      isWarning := decide (usage ≥ cfg.warningThreshold),
      isBlocked := decide (usage ≥ 1) }

/-- cleanupOldRequests on one limit entry: keep the entries whose
timestamp is strictly after now minus the window, then refresh the
warning flags. -/
def cleanupEntry (cfg : RLConfig) (now : Nat) (lim : LimitEntry) :
    LimitEntry :=
  updateWarningStatus cfg
    { lim with
        requests := lim.requests.filter
          (fun r => decide ((now : Int) - (cfg.windowMs : Int)
            < (r.timestamp : Int))) }

/-- queueRequest: append the caller at the tail of the service queue. -/
def queueRequest (now : Nat) (st : RLState) (service : String)
    (realmId : Option String) (callerId : Nat) : RLState :=
  match alookup st.queues service with
  | none => st
  | some q =>
      { st with
          queues := aset st.queues service
            (q ++ [{ callerId := callerId, realmId := realmId,
                     timestamp := now }]) }

inductive ProceedResult where
  | err (msg : String)
  | admitted
  | queued
deriving DecidableEq

/-- canProceed: unknown service throws before touching any state;
otherwise purge stale entries, then queue when the window count has
reached the maximum, queue when the quickbooks concurrency cap is
reached, else admit. -/
def canProceed (now : Nat) (st : RLState) (service : String)
    (realmId : Option String) (callerId : Nat) :
    ProceedResult × RLState :=
  match cfgFor service, alookup st.limits service with
  | some cfg, some lim =>
      let lim1 := cleanupEntry cfg now lim
      let st1 : RLState := { st with limits := aset st.limits service lim1 }
      if lim1.requests.length ≥ cfg.maxRequests then
        (.queued, queueRequest now st1 service realmId callerId)
      else if service = "quickbooks"
          && (match cfg.maxConcurrent with
              | some c => lim1.concurrentRequests ≥ c
              | none => false) then
        (.queued, queueRequest now st1 service realmId callerId)
      else
        (.admitted, st1)
  | _, _ => (.err ("Unknown service: " ++ service), st)

/-- recordRequestStart: append a timestamped entry, bump the quickbooks
concurrency counter, refresh the warning flags. -/
def recordRequestStart (now : Nat) (st : RLState) (service : String)
    (realmId : Option String) : RLState :=
  match alookup st.limits service, cfgFor service with
  | some lim, some cfg =>
      let lim1 :=
        { lim with
            requests := lim.requests
              ++ [{ timestamp := now, realmId := realmId }],
            concurrentRequests :=
              if service = "quickbooks" then lim.concurrentRequests + 1
              else lim.concurrentRequests }
      { st with limits := aset st.limits service (updateWarningStatus cfg lim1) }
  | _, _ => st

/-- The release capacity check of processQueue: the window count below
the maximum, and for quickbooks also the concurrency counter below its
cap. -/
def canRelease (cfg : RLConfig) (service : String) (lim1 : LimitEntry) :
    Bool :=
  (lim1.requests.length < cfg.maxRequests)
    && (service ≠ "quickbooks"
        || (match cfg.maxConcurrent with
            | some c => lim1.concurrentRequests < c
            | none => false))

/-- processQueue: nothing to do on an empty queue; otherwise purge stale
entries and, when both the window count and (for quickbooks) the
concurrency counter are below their limits, release exactly the queue
head.  Returns the released caller, if any. -/
def processQueue (now : Nat) (st : RLState) (service : String) :
    Option QItem × RLState :=
  match alookup st.queues service, cfgFor service,
      alookup st.limits service with
  | some queue, some cfg, some lim =>
      match queue with
      | [] => (none, st)
      | qh :: qt =>
          let lim1 := cleanupEntry cfg now lim
          let st1 : RLState := { st with limits := aset st.limits service lim1 }
          if canRelease cfg service lim1 then
            (some qh, { st1 with queues := aset st1.queues service qt })
          else
            (none, st1)
  | _, _, _ => (none, st)

/-- recordRequestComplete: floor-decrement the quickbooks concurrency
counter, then attempt one queued release. -/
def recordRequestComplete (now : Nat) (st : RLState) (service : String) :
    Option QItem × RLState :=
  let st1 : RLState :=
    match alookup st.limits service with
    | some lim =>
        if service = "quickbooks" then
          { st with
              limits := aset st.limits service
                { lim with concurrentRequests := lim.concurrentRequests - 1 } }
        else st
    | none => st
  processQueue now st1 service

/-- Minimum timestamp of a list of request entries (Math.min over the
mapped timestamps). -/
def oldestTs : List ReqEntry → Nat
  | [] => 0
  | [r] => r.timestamp
  | r :: s :: rest => min r.timestamp (oldestTs (s :: rest))

/-- getTimeUntilReset on the current (already purged) entry. -/
def getTimeUntilReset (cfg : RLConfig) (now : Nat) (lim : LimitEntry) :
    Nat :=
  match lim.requests with
  | [] => 0
  | _ => (oldestTs lim.requests + cfg.windowMs) - now

structure RLStatus where
  service : String
  currentRequests : Nat
  maxRequests : Nat
  usage : Int
  isWarning : Bool
  isBlocked : Bool
  timeUntilReset : Nat
  concurrentRequests : Nat
  maxConcurrent : Nat
  queuedRequests : Nat
deriving DecidableEq

/-- getRateLimitStatus: null for an unknown service (before any state
is touched); otherwise purge stale entries (persisting the purge) and
derive the UI view. -/
def getRateLimitStatus (now : Nat) (st : RLState) (service : String) :
    Option RLStatus × RLState :=
  match cfgFor service, alookup st.limits service with
  | some cfg, some lim =>
      let lim1 := cleanupEntry cfg now lim
      let st1 : RLState := { st with limits := aset st.limits service lim1 }
      let usage : ℚ := (lim1.requests.length : ℚ) / (cfg.maxRequests : ℚ)
      (some
        { service := service,
          currentRequests := lim1.requests.length,
          maxRequests := cfg.maxRequests,
          usage := round (usage * 100),
          isWarning := lim1.isWarning,
          isBlocked := lim1.isBlocked,
          timeUntilReset := getTimeUntilReset cfg now lim1,
          concurrentRequests := lim1.concurrentRequests,
          maxConcurrent := cfg.maxConcurrent.getD 0,
          queuedRequests := (alookup st.queues service).getD [] |>.length },
       st1)
  | _, _ => (none, st)

/-! ## WebhookProcessor reconnect logic

Translated from the webhook processor source: the connection state
carries the attempt counter, the current backoff delay and the
configured maximum; the open handler resets the counter and the delay;
the close handler schedules a reconnect only while the counter is below
the maximum; scheduleReconnect increments the counter and doubles the
delay plus a jitter, capping at 30 seconds.  The jitter (a random
number of milliseconds below 1000) is supplied as an input. -/

structure PCState where
  isConnected : Bool
  reconnectAttempts : Nat
  reconnectDelay : Nat
  maxReconnectAttempts : Nat
deriving DecidableEq

/-- Constructor state: disconnected, zero attempts, one-second delay,
at most five attempts. -/
def initialPCState : PCState :=
  { isConnected := false, reconnectAttempts := 0,
    reconnectDelay := 1000, maxReconnectAttempts := 5 }

/-- The onopen handler: mark connected, reset the attempt counter and
the backoff delay to their initial values. -/
def onOpen (s : PCState) : PCState :=
  { s with isConnected := true, reconnectAttempts := 0,
           reconnectDelay := 1000 }

/-- scheduleReconnect: bump the attempt counter and apply the capped
exponential backoff with jitter to the delay. -/
def scheduleReconnect (jitter : Nat) (s : PCState) : PCState :=
  { s with
      reconnectAttempts := s.reconnectAttempts + 1,
      reconnectDelay := min (s.reconnectDelay * 2 + jitter) 30000 }

/-- The onclose handler: mark disconnected, and schedule a reconnect
only while the attempt counter is below the maximum.  The boolean
records whether a reconnect timer was scheduled. -/
def onClose (jitter : Nat) (s : PCState) : PCState × Bool :=
  let s1 : PCState := { s with isConnected := false }
  if s1.reconnectAttempts < s1.maxReconnectAttempts then
    (scheduleReconnect jitter s1, true)
  else
    (s1, false)

/-- A run of consecutive close events (no successful open in between),
one jitter sample per event; returns the final state and how many
reconnect timers were scheduled. -/
def runCloses : List Nat → PCState → PCState × Nat
  | [], s => (s, 0)
  | j :: js, s =>
      let r := onClose j s
      let rest := runCloses js r.1
      (rest.1, (if r.2 then 1 else 0) + rest.2)

/-- An attempt outcome that the retry layer treats as retryable: a
failure that is not a client error, not an auth error, and carries the
network, server or rate-limit flag (the NETWORK, SERVER and RATE_LIMIT
categories of the spec). -/
def retryableFail : AttemptSpec → Bool
  | .ok => false
  | .fail e _ =>
      !(analyzeError e).isClientError
        && !(analyzeError e).isAuthError
        && ((analyzeError e).isNetworkError
            || (analyzeError e).isServerError
            || (analyzeError e).isRateLimit)

/-! ## Concrete inputs used by witnesses and counterexamples -/

/-- A token payload with an empty (falsy) access credential. -/
def noAccessTok : Tok :=
  { accessToken := "", refreshToken := none, expiresAt := none,
    provider := "", storedAt := 0, lastUsed := 0 }

/-- A stored record with no expiry instant. -/
def noExpiryTokEx : Tok :=
  { accessToken := "tokA", refreshToken := some "refA", expiresAt := none,
    provider := "jobber", storedAt := 1000, lastUsed := 1000 }

/-- A stored record that needs refresh but is not yet expired at time
1000000: expiry 1400000, ten-minute refresh buffer reached, five-minute
expiry buffer not yet reached. -/
def refreshableTokEx : Tok :=
  { accessToken := "tokB", refreshToken := some "refB",
    expiresAt := some 1400000, provider := "jobber",
    storedAt := 0, lastUsed := 0 }

/-- A server error input (HTTP 500). -/
def serverErrEx : ErrIn :=
  { name := "", message := "boom", status := some 500, code := none,
    graphQLErrors := none, headerRetryAfter := none,
    bodyRetryAfter := none }

/-- An auth-status error that also carries GraphQL error details. -/
def authGraphqlErrEx : ErrIn :=
  { name := "", message := "", status := some 401, code := none,
    graphQLErrors := some ["bad query"], headerRetryAfter := none,
    bodyRetryAfter := none }

/-- A limit entry holding one request recorded at time 0. -/
def c5Lim : LimitEntry :=
  { requests := [{ timestamp := 0, realmId := none }],
    concurrentRequests := 0, isWarning := false, isBlocked := false }

/-- The request entry recorded at time 0. -/
def c5Req : ReqEntry := { timestamp := 0, realmId := none }

/-- A rate limiter state whose jobber window holds c5Req. -/
def c5St : RLState :=
  { limits := [("jobber", c5Lim)], queues := [("jobber", [])] }

/-- An empty quickbooks limit entry. -/
def c6Lim : LimitEntry :=
  { requests := [], concurrentRequests := 0,
    isWarning := false, isBlocked := false }

/-- First queued caller. -/
def c6Q1 : QItem :=
  { callerId := 1, realmId := some "realmA", timestamp := 10 }

/-- Second queued caller. -/
def c6Q2 : QItem := { callerId := 2, realmId := none, timestamp := 20 }

/-- A rate limiter state with two callers queued for quickbooks. -/
def c6St : RLState :=
  { limits := [("quickbooks", c6Lim)],
    queues := [("quickbooks", [c6Q1, c6Q2])] }

/-! ## Helper lemmas -/

theorem alookup_aset {α : Type} (m : List (String × α)) (p q : String) (t : α) :
    alookup (aset m p t) q = if q = p then some t else alookup m q := by
  induction m with
  | nil =>
      by_cases h : q = p
      · simp [aset, alookup, h]
      · simp [aset, alookup, h, show ¬ p = q from fun hh => h hh.symm]
  | cons hd tl ih =>
      obtain ⟨k, v⟩ := hd
      by_cases hk : k = p
      · subst hk
        by_cases hq : q = k
        · simp [aset, alookup, hq]
        · simp [aset, alookup, hq, show ¬ k = q from fun hh => hq hh.symm]
      · by_cases hq : k = q
        · subst hq
          simp [aset, alookup, hk, show ¬ k = p from hk]
        · simp [aset, alookup, hk, hq, ih]

theorem alookup_aerase {α : Type} (m : List (String × α)) (p q : String) :
    alookup (aerase m p) q = if q = p then none else alookup m q := by
  induction m with
  | nil => simp [aerase, alookup]
  | cons hd tl ih =>
      obtain ⟨k, v⟩ := hd
      by_cases hk : k = p
      · subst hk
        by_cases hq : q = k
        · subst hq
          simp [aerase, alookup, ih]
        · simp [aerase, alookup, hq, ih,
            show ¬ k = q from fun hh => hq hh.symm]
      · by_cases hq : k = q
        · subst hq
          simp [aerase, alookup, hk, show ¬ k = p from hk]
        · simp [aerase, alookup, hk, hq, ih]

/-! ## Claim theorems: token store -/

/-- C1 counterexample: storeToken called with a payload lacking an
access credential succeeds (returns true) and persists the record, so
the store operation neither fails with a validation error nor keeps the
invalid record out of the persisted state. -/
theorem storeToken_missing_access_cex :
    (storeToken 0 [] "jobber" noAccessTok).1 = true ∧
    alookup (storeToken 0 [] "jobber" noAccessTok).2 "jobber" =
      some { accessToken := "", refreshToken := none, expiresAt := none,
             provider := "jobber", storedAt := 0, lastUsed := 0 } := by
  constructor
  · rfl
  · rfl

/-- C1 amended: storeToken performs no validation at all — for every
payload, also one lacking an access credential, it returns true and
persists the record (with provider and timestamps stamped on); the
validateToken check, which does flag a missing access credential,
is not consulted by storeToken (it is used only by the refresh
callback). -/
theorem storeToken_persists_unvalidated (now : Nat) (m : TokenMap)
    (p : String) (d : Tok) :
    (storeToken now m p d).1 = true ∧
    alookup (storeToken now m p d).2 p =
      some { d with provider := p, storedAt := now, lastUsed := now } ∧
    ((validateToken d).valid = false ↔ d.accessToken = "") := by
  refine ⟨rfl, ?_, ?_⟩
  · simp [storeToken, alookup_aset]
  · unfold validateToken
    by_cases h : d.accessToken = "" <;> simp [h]

/-- C10: a token record with no expiry instant is never expired and
never needs refresh; getToken returns it (bumping only lastUsed) rather
than deleting it, and getTokenStatus reports it connected and
authenticated. -/
theorem noExpiry_token_stays_valid (now : Nat) (m : TokenMap)
    (p : String) (t : Tok) (hm : alookup m p = some t)
    (hexp : t.expiresAt = none) :
    isTokenExpired now t = false ∧
    needsRefresh now t = false ∧
    (getToken now m p).1 = some { t with lastUsed := now } ∧
    (getTokenStatus now m p).1.connected = true ∧
    (getTokenStatus now m p).1.authenticated = true := by
  have hexp1 : isTokenExpired now t = false := by
    unfold isTokenExpired
    rw [hexp]
  have href : needsRefresh now t = false := by
    unfold needsRefresh
    rw [hexp]
  have hget : getToken now m p =
      (some { t with lastUsed := now },
       (storeToken now m p { t with lastUsed := now }).2) := by
    unfold getToken
    rw [hm]
    simp [hexp1]
  refine ⟨hexp1, href, by rw [hget], ?_, ?_⟩ <;>
    simp [getTokenStatus, hget, isTokenExpired, hexp]

/-- C10 witness: a concrete record without expiresAt survives get and
reports connected and authenticated. -/
theorem noExpiry_token_stays_valid_witness :
    isTokenExpired 987654321 noExpiryTokEx = false ∧
    needsRefresh 987654321 noExpiryTokEx = false ∧
    (getToken 987654321 [("jobber", noExpiryTokEx)] "jobber").1 =
      some { noExpiryTokEx with lastUsed := 987654321 } ∧
    (getTokenStatus 987654321 [("jobber", noExpiryTokEx)] "jobber").1.connected
      = true ∧
    (getTokenStatus 987654321 [("jobber", noExpiryTokEx)] "jobber").1.authenticated
      = true :=
  noExpiry_token_stays_valid 987654321 [("jobber", noExpiryTokEx)] "jobber"
    noExpiryTokEx (by rfl) (by rfl)

/-- C8 counterexample: getToken on a present, non-expired record
re-persists it through storeToken, which re-stamps storedAt with the
read time — the persisted record's storedAt changes from 1000 to 2000,
so get does not leave every field other than lastUsed unchanged. -/
theorem getToken_restamps_storedAt_cex :
    noExpiryTokEx.storedAt = 1000 ∧
    (getToken 2000 [("jobber", noExpiryTokEx)] "jobber").1
      = some { noExpiryTokEx with lastUsed := 2000 } ∧
    alookup (getToken 2000 [("jobber", noExpiryTokEx)] "jobber").2 "jobber"
      = some { noExpiryTokEx with storedAt := 2000, lastUsed := 2000 } := by
  refine ⟨rfl, rfl, rfl⟩

/-- C8 amended: for a present, non-expired record, getToken returns the
record with only lastUsed updated, but the re-persisted record has both
lastUsed and storedAt stamped with the read time (and the provider
field set to the key); access credential, refresh credential and expiry
are unchanged in both, and other providers' records are untouched. -/
theorem getToken_frame (now : Nat) (m : TokenMap) (p : String) (t : Tok)
    (hm : alookup m p = some t) (hexp : isTokenExpired now t = false) :
    (getToken now m p).1 = some { t with lastUsed := now } ∧
    alookup (getToken now m p).2 p
      = some { t with provider := p, storedAt := now, lastUsed := now } ∧
    (∀ q, q ≠ p → alookup (getToken now m p).2 q = alookup m q) := by
  have hget : getToken now m p =
      (some { t with lastUsed := now },
       (storeToken now m p { t with lastUsed := now }).2) := by
    unfold getToken
    rw [hm]
    simp [hexp]
  refine ⟨by rw [hget], ?_, ?_⟩
  · rw [hget]
    simp [storeToken, alookup_aset]
  · intro q hq
    rw [hget]
    simp [storeToken, alookup_aset, hq]

/-- C8 witness: the frame property of getToken evaluated on a concrete
record that needs refresh soon but is not expired. -/
theorem getToken_frame_witness :
    (getToken 1000000 [("jobber", refreshableTokEx)] "jobber").1
      = some { refreshableTokEx with lastUsed := 1000000 } ∧
    alookup (getToken 1000000 [("jobber", refreshableTokEx)] "jobber").2
        "jobber"
      = some { refreshableTokEx with
                 provider := "jobber", storedAt := 1000000,
                 lastUsed := 1000000 } ∧
    (∀ q, q ≠ "jobber" →
       alookup (getToken 1000000 [("jobber", refreshableTokEx)] "jobber").2 q
         = alookup [("jobber", refreshableTokEx)] q) :=
  getToken_frame 1000000 [("jobber", refreshableTokEx)] "jobber"
    refreshableTokEx (by rfl) (by decide)

/-- C2 counterexample: a stored record that needs refresh, with a
refresh function that throws — the callback returns absent but the
record is still present afterwards, so a failing refreshFn does not
remove the stored record. -/
theorem refreshCallback_throw_keeps_record_cex :
    needsRefresh 1000000 refreshableTokEx = true ∧
    isTokenExpired 1000000 refreshableTokEx = false ∧
    (refreshCallback 1000000 [("jobber", refreshableTokEx)] "jobber"
        RefreshSpec.throws).1 = none ∧
    alookup (refreshCallback 1000000 [("jobber", refreshableTokEx)]
        "jobber" RefreshSpec.throws).2 "jobber" ≠ none := by
  refine ⟨by decide, by decide, by decide, by decide⟩

/-- C2 amended: for a present, non-expired record, the refresh callback
returns the current (lastUsed-bumped) record when no refresh is needed;
when refresh is needed, a refresh function that returns an invalid or
null result causes the record to be removed and absent returned, a
valid result is returned, but a refresh function that throws causes
absent to be returned with the record left persisted. -/
theorem refreshCallback_failure_paths (now : Nat) (m : TokenMap)
    (p : String) (t : Tok) (hm : alookup m p = some t)
    (hexp : isTokenExpired now t = false) :
    (needsRefresh now t = false →
       ∀ r, refreshCallback now m p r
         = (some { t with lastUsed := now }, (getToken now m p).2)) ∧
    (needsRefresh now t = true →
       ((refreshCallback now m p RefreshSpec.throws).1 = none ∧
        alookup (refreshCallback now m p RefreshSpec.throws).2 p
          = some { t with
                     provider := p, storedAt := now,
                     lastUsed := now }) ∧
       ((refreshCallback now m p (RefreshSpec.val none)).1 = none ∧
        alookup (refreshCallback now m p (RefreshSpec.val none)).2 p
          = none) ∧
       (∀ nt, (validateToken nt).valid = false →
          (refreshCallback now m p (RefreshSpec.val (some nt))).1 = none ∧
          alookup (refreshCallback now m p (RefreshSpec.val (some nt))).2 p
            = none) ∧
       (∀ nt, (validateToken nt).valid = true →
          (refreshCallback now m p (RefreshSpec.val (some nt))).1
            = some nt)) := by
  have hget : getToken now m p =
      (some { t with lastUsed := now },
       (storeToken now m p { t with lastUsed := now }).2) := by
    unfold getToken
    rw [hm]
    simp [hexp]
  have hnr : needsRefresh now { t with lastUsed := now }
      = needsRefresh now t := rfl
  constructor
  · intro hno r
    unfold refreshCallback
    rw [hget]
    simp [hnr, hno]
  · intro hyes
    refine ⟨?_, ?_, ?_, ?_⟩
    · unfold refreshCallback
      rw [hget]
      simp [hnr, hyes, storeToken, alookup_aset]
    · unfold refreshCallback
      rw [hget]
      simp [hnr, hyes, removeToken, storeToken, alookup_aerase]
    · intro nt hv
      unfold refreshCallback
      rw [hget]
      simp [hnr, hyes, hv, removeToken, storeToken, alookup_aerase]
    · intro nt hv
      unfold refreshCallback
      rw [hget]
      simp [hnr, hyes, hv]

/-- C2 witness: on the concrete refresh-needing record, a null refresh
result removes the record and returns absent. -/
theorem refreshCallback_failure_paths_witness :
    (refreshCallback 1000000 [("jobber", refreshableTokEx)] "jobber"
        (RefreshSpec.val none)).1 = none ∧
    alookup (refreshCallback 1000000 [("jobber", refreshableTokEx)]
        "jobber" (RefreshSpec.val none)).2 "jobber" = none :=
  ((refreshCallback_failure_paths 1000000 [("jobber", refreshableTokEx)]
      "jobber" refreshableTokEx (by rfl) (by decide)).2 (by decide)).2.1

/-! ## Claim theorems: rate limiter, unknown service -/

/-- C9: for a service name that is not jobber or quickbooks, canProceed
rejects with an Unknown service error and leaves the state untouched
(no admission, no queueing, no mutation), while getRateLimitStatus for
the same name returns null rather than throwing. -/
theorem unknownService_canProceed_throws (now : Nat) (st : RLState)
    (service : String) (realmId : Option String) (callerId : Nat)
    (h1 : service ≠ "jobber") (h2 : service ≠ "quickbooks") :
    canProceed now st service realmId callerId
      = (.err ("Unknown service: " ++ service), st) ∧
    getRateLimitStatus now st service = (none, st) := by
  have hcfg : cfgFor service = none := by simp [cfgFor, h1, h2]
  cases halim : alookup st.limits service <;>
    simp [canProceed, getRateLimitStatus, hcfg, halim]

/-- C9 witness: a concrete unknown service name is rejected without any
state change and its status read returns null. -/
theorem unknownService_canProceed_throws_witness :
    canProceed 0 initialRLState "github" none 7
      = (.err "Unknown service: github", initialRLState) ∧
    getRateLimitStatus 0 initialRLState "github" = (none, initialRLState) :=
  unknownService_canProceed_throws 0 initialRLState "github" none 7
    (by decide) (by decide)

theorem limits_after_queueRequest (now : Nat) (st : RLState)
    (service : String) (realmId : Option String) (callerId : Nat) :
    (queueRequest now st service realmId callerId).limits = st.limits := by
  unfold queueRequest
  cases alookup st.queues service <;> rfl

/-- C5: a request entry whose timestamp is at least a full window in
the past is dropped by the purge; canProceed persists exactly the
purged entry as the limit state it checks against (in every branch,
admitted or queued), and getRateLimitStatus both reports the purged
count and persists the purged entry — the window is strictly sliding
before every admission check and every status read. -/
theorem slidingWindow_purged (service : String) (cfg : RLConfig)
    (st : RLState) (lim : LimitEntry) (now : Nat) (r : ReqEntry)
    (hcfg : cfgFor service = some cfg)
    (hlim : alookup st.limits service = some lim)
    (_hmem : r ∈ lim.requests)
    (hold : r.timestamp + cfg.windowMs ≤ now) :
    r ∉ (cleanupEntry cfg now lim).requests ∧
    (∀ realmId callerId,
       alookup ((canProceed now st service realmId callerId).2).limits
           service = some (cleanupEntry cfg now lim)) ∧
    (∃ stat, (getRateLimitStatus now st service).1 = some stat ∧
       stat.currentRequests = (cleanupEntry cfg now lim).requests.length ∧
       alookup ((getRateLimitStatus now st service).2).limits service
         = some (cleanupEntry cfg now lim)) := by
  refine ⟨?_, ?_, ?_⟩
  · intro hr
    have hfil : (cleanupEntry cfg now lim).requests
        = lim.requests.filter
            (fun q => decide ((now : Int) - (cfg.windowMs : Int)
              < (q.timestamp : Int))) := rfl
    rw [hfil] at hr
    have h3 : (now : Int) - (cfg.windowMs : Int) < (r.timestamp : Int) :=
      of_decide_eq_true (List.mem_filter.mp hr).2
    omega
  · intro realmId callerId
    unfold canProceed
    rw [hcfg, hlim]
    simp only []
    split
    · rw [limits_after_queueRequest]
      simp [alookup_aset]
    · split
      · rw [limits_after_queueRequest]
        simp [alookup_aset]
      · simp [alookup_aset]
  · unfold getRateLimitStatus
    rw [hcfg, hlim]
    exact ⟨_, rfl, rfl, by simp [alookup_aset]⟩

/-- C6: queued admission requests are appended at the tail; a release
attempt on a nonempty queue releases exactly the earliest-enqueued
caller (the head) when both the rate window and the concurrency cap
allow, leaving the rest in arrival order, and releases nobody (leaving
the queue unchanged) otherwise; an empty queue releases nobody. -/
theorem queue_fifo_release (now : Nat) (st : RLState) (service : String)
    (cfg : RLConfig) (lim : LimitEntry) (queue : List QItem)
    (hcfg : cfgFor service = some cfg)
    (hlim : alookup st.limits service = some lim)
    (hq : alookup st.queues service = some queue) :
    (∀ realmId callerId,
       alookup (queueRequest now st service realmId callerId).queues
           service
         = some (queue ++ [{ callerId := callerId, realmId := realmId,
                             timestamp := now }])) ∧
    (∀ qh qt, queue = qh :: qt →
       (canRelease cfg service (cleanupEntry cfg now lim) = true →
          (processQueue now st service).1 = some qh ∧
          alookup ((processQueue now st service).2).queues service
            = some qt) ∧
       (canRelease cfg service (cleanupEntry cfg now lim) = false →
          (processQueue now st service).1 = none ∧
          alookup ((processQueue now st service).2).queues service
            = some queue)) ∧
    (queue = [] → processQueue now st service = (none, st)) := by
  refine ⟨?_, ?_, ?_⟩
  · intro realmId callerId
    unfold queueRequest
    rw [hq]
    simp [alookup_aset]
  · intro qh qt hshape
    subst hshape
    constructor
    · intro hcap
      unfold processQueue
      rw [hq, hcfg, hlim]
      simp [hcap, alookup_aset]
    · intro hcap
      unfold processQueue
      rw [hq, hcfg, hlim]
      simp [hcap, hq]
  · intro hshape
    subst hshape
    unfold processQueue
    rw [hq, hcfg, hlim]

/-- C5 witness: a request recorded at time 0 is gone from the jobber
window at exactly time 0 plus the five-minute window length, both after
an admission check and in the status read. -/
theorem slidingWindow_purged_witness :
    c5Req ∉ (cleanupEntry jobberConfig 300000 c5Lim).requests ∧
    alookup ((canProceed 300000 c5St "jobber" none 5).2).limits "jobber"
      = some (cleanupEntry jobberConfig 300000 c5Lim) :=
  ⟨(slidingWindow_purged "jobber" jobberConfig c5St c5Lim 300000 c5Req
      (by rfl) (by rfl) (by decide) (by decide)).1,
   (slidingWindow_purged "jobber" jobberConfig c5St c5Lim 300000 c5Req
      (by rfl) (by rfl) (by decide) (by decide)).2.1 none 5⟩

/-- C6 witness: with capacity available, the first of two queued
quickbooks callers is released and the second remains queued. -/
theorem queue_fifo_release_witness :
    (processQueue 1000 c6St "quickbooks").1 = some c6Q1 ∧
    alookup ((processQueue 1000 c6St "quickbooks").2).queues "quickbooks"
      = some [c6Q2] :=
  ((queue_fifo_release 1000 c6St "quickbooks" quickbooksConfig c6Lim
      [c6Q1, c6Q2] (by rfl) (by rfl) (by rfl)).2.1 c6Q1 [c6Q2] rfl).1
    (by decide)

/-! ## Claim theorems: webhook processor reconnect -/

/-- C7: over any run of consecutive close events with no successful
open, the number of reconnect timers scheduled is the length of the run
capped by the remaining attempt budget — in particular it never exceeds
maxReconnectAttempts and is zero once the counter has reached the
maximum; a successful open resets the attempt counter and the backoff
delay to their initial values; each scheduled reconnect doubles the
delay plus jitter, capped at 30 seconds. -/
theorem reconnect_bounded_and_resets (js : List Nat) (s : PCState)
    (jitter : Nat) :
    (runCloses js s).2
      = min js.length (s.maxReconnectAttempts - s.reconnectAttempts) ∧
    (onOpen s).reconnectAttempts = 0 ∧
    (onOpen s).reconnectDelay = 1000 ∧
    (scheduleReconnect jitter s).reconnectAttempts
      = s.reconnectAttempts + 1 ∧
    (scheduleReconnect jitter s).reconnectDelay
      = min (s.reconnectDelay * 2 + jitter) 30000 := by
  refine ⟨?_, rfl, rfl, rfl, rfl⟩
  induction js generalizing s with
  | nil => simp [runCloses]
  | cons j js ih =>
      by_cases h : s.reconnectAttempts < s.maxReconnectAttempts
      · simp [runCloses, onClose, scheduleReconnect, h, ih]
        omega
      · simp [runCloses, onClose, h, ih]
        omega

/-! ## Claim theorems: error handler -/

/-- C3 counterexample: an error carrying both HTTP status 401 and
GraphQL error details — the GraphQL check is a separate if statement
that runs after the status chain and overwrites the category, so the
final category is GRAPHQL, not the status-based AUTH verdict the claim
requires when a status is present. -/
theorem analyzeError_graphql_override_cex :
    authGraphqlErrEx.status = some 401 ∧
    (analyzeError authGraphqlErrEx).isAuthError = true ∧
    (analyzeError authGraphqlErrEx).category = some Cat.graphql ∧
    (analyzeError authGraphqlErrEx).category ≠ some Cat.auth := by
  refine ⟨rfl, by decide, by decide, by decide⟩

/-- C3 amended: when an HTTP status is present and the error carries no
GraphQL signature, the category and flags follow the status chain with
the claimed retryability (401 AUTH, 429 RATE_LIMIT retryable, 500 and
above SERVER retryable, other 400 to 499 CLIENT non-retryable); but
when the GraphQL signature is present, the category is GRAPHQL even if
a status is also present — only the boolean status flags survive the
override. -/
theorem analyzeError_status_mapping (e : ErrIn) (sc : Nat)
    (hst : statusOfErr e = some sc) :
    (gqlSig e = false →
      ((sc = 401 → (analyzeError e).category = some Cat.auth ∧
          (analyzeError e).isAuthError = true) ∧
       (sc = 429 → (analyzeError e).category = some Cat.rateLimit ∧
          (analyzeError e).isRateLimit = true ∧
          shouldRetry (analyzeError e) 0 3 = true) ∧
       (500 ≤ sc → (analyzeError e).category = some Cat.server ∧
          (analyzeError e).isServerError = true ∧
          shouldRetry (analyzeError e) 0 3 = true) ∧
       (400 ≤ sc → sc < 500 → sc ≠ 401 → sc ≠ 429 →
          (analyzeError e).category = some Cat.client ∧
          (analyzeError e).isClientError = true ∧
          shouldRetry (analyzeError e) 0 3 = false))) ∧
    (gqlSig e = true →
      (analyzeError e).category = some Cat.graphql ∧
      (sc = 401 → (analyzeError e).isAuthError = true)) := by
  constructor
  · intro hgql
    refine ⟨?_, ?_, ?_, ?_⟩
    · intro h401
      subst h401
      cases hnet : isNetworkSig e <;>
        simp [analyzeError, hst, hgql, hnet]
    · intro h429
      subst h429
      cases hnet : isNetworkSig e <;>
        simp [analyzeError, shouldRetry, hst, hgql, hnet]
    · intro h500
      have h1 : sc ≠ 401 := by omega
      have h2 : sc ≠ 429 := by omega
      cases hnet : isNetworkSig e <;>
        simp [analyzeError, shouldRetry, hst, hgql, hnet, h1, h2, h500]
    · intro hlo hhi h1 h2
      have h3 : ¬ 500 ≤ sc := by omega
      cases hnet : isNetworkSig e <;>
        simp [analyzeError, shouldRetry, hst, hgql, hnet, h1, h2, h3, hlo]
  · intro hgql
    constructor
    · cases hnet : isNetworkSig e <;>
        simp [analyzeError, hst, hgql, hnet]
    · intro h401
      subst h401
      cases hnet : isNetworkSig e <;>
        simp [analyzeError, hst, hgql, hnet]

/-- C3 witness: the status mapping evaluated on the concrete server
error: category SERVER and retryable. -/
theorem analyzeError_status_mapping_witness :
    (analyzeError serverErrEx).category = some Cat.server ∧
    (analyzeError serverErrEx).isServerError = true ∧
    shouldRetry (analyzeError serverErrEx) 0 3 = true :=
  ((analyzeError_status_mapping serverErrEx 500 (by rfl)).1
    (by decide)).2.2.1 (by omega)

/-- C4 helper: the number of invocations of the wrapped operation is
bounded by the remaining loop fuel. -/
theorem runRetry_calls_le (M : Nat) (o : Nat → AttemptSpec) :
    ∀ fuel rc calls, (runRetry M o fuel rc calls).calls ≤ calls + fuel := by
  intro fuel
  induction fuel with
  | zero =>
      intro rc calls
      simp [runRetry, RetryOutcome.calls]
  | succ f ih =>
      intro rc calls
      unfold runRetry
      cases o calls with
      | ok =>
          simp [RetryOutcome.calls]
      | fail e r =>
          by_cases h1 : shouldRetry (analyzeError e) rc M = true
          · have := ih (rc + 1) (calls + 1)
            simp [h1]
            omega
          · by_cases h2 : ((analyzeError e).isAuthError
                && (r == some true)) = true
            · have := ih (rc + 1) (calls + 1)
              simp [h1, h2]
              omega
            · simp [h1, h2, RetryOutcome.calls]

/-- C4 helper: when every invocation fails retryably, the run consumes
the whole retry budget and ends in the in-loop enhanced error. -/
theorem runRetry_all_retryable (M : Nat) (o : Nat → AttemptSpec)
    (hall : ∀ i, retryableFail (o i) = true) :
    ∀ fuel rc calls, 1 ≤ fuel → rc + fuel = M + 1 →
      runRetry M o fuel rc calls = .enhanced (calls + fuel) := by
  intro fuel
  induction fuel with
  | zero =>
      intro rc calls hf
      omega
  | succ f ih =>
      intro rc calls _ hsum
      have hspec := hall calls
      unfold runRetry
      cases ho : o calls with
      | ok =>
          rw [ho] at hspec
          simp [retryableFail] at hspec
      | fail e r =>
          rw [ho] at hspec
          simp only [retryableFail, Bool.and_eq_true,
            Bool.not_eq_true'] at hspec
          obtain ⟨⟨hcl, hau⟩, hdis⟩ := hspec
          by_cases hrc : rc ≥ M
          · have hf0 : f = 0 := by omega
            have hsr : shouldRetry (analyzeError e) rc M = false := by
              unfold shouldRetry
              simp [hrc]
            have hna : ((analyzeError e).isAuthError
                && (r == some true)) = false := by
              simp [hau]
            subst hf0
            simp [hsr, hna]
          · have hsr : shouldRetry (analyzeError e) rc M = true := by
              unfold shouldRetry
              simp [hrc, hcl, hdis]
            have hfge : 1 ≤ f := by omega
            have := ih (rc + 1) (calls + 1) hfge (by omega)
            simp [hsr, this]
            omega

/-- C4: the retry coordinator performs at most maxRetries (3) retries —
the wrapped operation is invoked at most four times (one initial call
plus three retries, a retry happening only while the retry count is
strictly below maxRetries) — and when every failure is retryable the
run ends, after exactly the four invocations, in a terminal enhanced
error. -/
theorem withRetry_never_exceeds_maxRetries (outcomes : Nat → AttemptSpec) :
    (withRetryRun 3 outcomes).calls ≤ 4 ∧
    ((∀ i, retryableFail (outcomes i) = true) →
       withRetryRun 3 outcomes = RetryOutcome.enhanced 4) := by
  constructor
  · have := runRetry_calls_le 3 outcomes 4 0 0
    simpa [withRetryRun] using this
  · intro hall
    have := runRetry_all_retryable 3 outcomes hall 4 0 0 (by omega)
      (by omega)
    simpa [withRetryRun] using this

/-- C4 witness: an operation that always fails with HTTP 500 is invoked
exactly four times and ends in the enhanced error. -/
theorem withRetry_never_exceeds_maxRetries_witness :
    (withRetryRun 3 (fun _ => AttemptSpec.fail serverErrEx none)).calls
      ≤ 4 ∧
    withRetryRun 3 (fun _ => AttemptSpec.fail serverErrEx none)
      = RetryOutcome.enhanced 4 :=
  ⟨(withRetry_never_exceeds_maxRetries
      (fun _ => AttemptSpec.fail serverErrEx none)).1,
   (withRetry_never_exceeds_maxRetries
      (fun _ => AttemptSpec.fail serverErrEx none)).2 (fun _ => by decide)⟩

end WorkSync
